import Mathlib

/-!
Shallow embedding of `src/app.py`, a database connectivity health-check
utility (Flask HTTP surface + CLI) built on SQLAlchemy.

Modelling conventions:
* The process environment (`os.getenv`) is a partial map `Env := String → Option String`.
* Python `str.strip()` is `pyStrip`, `str.lower()` is `pyToLower`, `int()`
  on a string is `pyIntOfString` — implemented over the character list so
  that concrete runs evaluate inside the kernel.
* Python exceptions are values of `PyExc`, carrying the class used for
  `except` dispatch (`ExcClass`), the class name (`type(e).__name__`), the
  message (`str(e)`), and optionally a wrapped DBAPI error (`e.orig`, with
  its text and its optional `pgcode` attribute).
* Fallible Python code returns `Except PyExc α`; an uncaught exception is
  `Except.error`.
* The behaviour of the external SQLAlchemy engine (driver import, TCP
  connect, probe query) is an oracle carried in a `World`: `engineResult`
  is what `create_engine` does beyond URL building, `connectResult` is what
  `engine.connect()` + `conn.execute(text("SELECT 1"))` does.
* `URL.render_as_string(hide_password=True)` is modelled after SQLAlchemy:
  the password renders as `***` (only when a username is present), and it
  is never incorporated verbatim.
-/

/-- The process environment: `os.getenv`. -/
def Env : Type := String → Option String

/-- Python `str.strip()`: drop leading and trailing whitespace. -/
def pyStrip (s : String) : String :=
  ⟨((s.data.dropWhile Char.isWhitespace).reverse.dropWhile Char.isWhitespace).reverse⟩

/-- Python `str.lower()` (ASCII range, which covers the recognized
kind-selector synonyms). -/
def pyToLower (s : String) : String :=
  ⟨s.data.map (fun c => if 'A' ≤ c ∧ c ≤ 'Z' then Char.ofNat (c.toNat + 32) else c)⟩

/-- Decimal digits to a number; `none` when empty or non-digit. -/
def digitsToNat? (ds : List Char) : Option Nat :=
  if ds = [] then none
  else if ds.all Char.isDigit then
    some (ds.foldl (fun acc c => acc * 10 + (c.toNat - 48)) 0)
  else none

/-- Python `int(s)` on a string: optional surrounding whitespace, optional
sign, then decimal digits; anything else raises `ValueError` (modelled as
`none`). -/
def pyIntOfString (s : String) : Option Int :=
  match (pyStrip s).data with
  | '-' :: ds => (digitsToNat? ds).map (fun n => -(n : Int))
  | '+' :: ds => (digitsToNat? ds).map (fun n => (n : Int))
  | ds => (digitsToNat? ds).map (fun n => (n : Int))

/-- Python exception classes relevant to the `except` clauses of `app.py`.
`NoSuchModuleError`, `ArgumentError`, `OperationalError` and
`ProgrammingError` are subclasses of `SQLAlchemyError`;
`otherSQLAlchemyError` stands for any further `SQLAlchemyError` subclass;
`runtimeError`, `valueError` and `otherException` are `Exception`
subclasses that are NOT `SQLAlchemyError` subclasses. -/
inductive ExcClass where
  | noSuchModuleError
  | argumentError
  | operationalError
  | programmingError
  | otherSQLAlchemyError
  | runtimeError
  | valueError
  | otherException
deriving DecidableEq, Repr

/-- Whether a class is caught by `except SQLAlchemyError`. -/
def ExcClass.isSQLAlchemyError : ExcClass → Bool
  | .noSuchModuleError => true
  | .argumentError => true
  | .operationalError => true
  | .programmingError => true
  | .otherSQLAlchemyError => true
  | .runtimeError => false
  | .valueError => false
  | .otherException => false

/-- The wrapped DBAPI error of a SQLAlchemy `DBAPIError`: `e.orig`, with
`str(e.orig)` and the optional `pgcode` attribute. -/
structure OrigError where
  text : String
  pgcode : Option String
deriving DecidableEq, Repr

/-- A Python exception value: dispatch class, `type(e).__name__`,
`str(e)`, and the optional wrapped driver error `e.orig`. -/
structure PyExc where
  cls : ExcClass
  name : String
  msg : String
  orig : Option OrigError := none
deriving DecidableEq, Repr

/-- `_get_env(key, default)`: fetch an environment variable with fallback
and strip whitespace.  Mirrors
`val = os.getenv(key); return (val.strip() if isinstance(val, str) else default)`:
a set variable is trimmed (possibly to `""`), an unset one yields the
default. -/
def _get_env (env : Env) (key : String) (default : Option String) : Option String :=
  match env key with
  | some v => some (pyStrip v)
  | none => default

/-- `_normalize_db_type(db_type)`: `None` or `""` (Python falsy) gives
`"postgresql"`; otherwise trim + lowercase and look up the synonym table,
falling back to `"postgresql"` for unknown values. -/
def _normalize_db_type (db_type : Option String) : String :=
  match db_type with
  | none => "postgresql"
  | some s =>
    if s = "" then "postgresql"
    else
      let v := pyToLower (pyStrip s)
      if v = "postgres" ∨ v = "postgresql" ∨ v = "pgsql" ∨ v = "psql" then "postgresql"
      else if v = "mysql" then "mysql"
      else "postgresql"

/-- The `ValueError` raised by Python `int(s)` on a non-numeric string. -/
def intValueError (s : String) : PyExc :=
  { cls := .valueError, name := "ValueError",
    msg := "invalid literal for int() with base 10: \x27" ++ s ++ "\x27" }

/-- The `details` dict returned by `build_db_url_from_env` (its keys are
fixed, so it is a record). -/
structure Details where
  db_type : String
  driver : String
  host : String
  port : Int
  database : String
  username : Option String
  url : String
deriving DecidableEq, Repr

/-- SQLAlchemy `URL.render_as_string(hide_password=True)` for a URL with a
host, an integer port and a database: the password renders as `***`, and
only when a username is present (SQLAlchemy omits the password section
entirely when `username is None`). -/
def render_as_string_hidden (drivername : String) (username : Option String)
    (password : Option String) (host : String) (port : Int) (database : String) : String :=
  drivername ++ "://" ++
    (match username with
     | some u => u ++ (match password with | some _ => ":***" | none => "") ++ "@"
     | none => "") ++
    host ++ ":" ++ toString port ++ "/" ++ database

/-- Local `db_type` of `build_db_url_from_env`:
`_normalize_db_type(_get_env("DB_TYPE", "postgresql"))`. -/
def resolved_db_type (env : Env) : String :=
  _normalize_db_type (_get_env env "DB_TYPE" (some "postgresql"))

/-- Local `is_pg`: `db_type == "postgresql"`. -/
def resolved_is_pg (env : Env) : Bool :=
  resolved_db_type env = "postgresql"

/-- Local `host`: `_get_env("DB_HOST", "localhost") or "localhost"`
(Python `or`: the empty string is falsy). -/
def resolved_host (env : Env) : String :=
  match _get_env env "DB_HOST" (some "localhost") with
  | some h => if h = "" then "localhost" else h
  | none => "localhost"

/-- Local `port` (as a string): `_get_env("DB_PORT", default)` followed by
`str(port) if port is not None else default`; the default was supplied, so
the value is never `None`. -/
def resolved_port_s (env : Env) : String :=
  (_get_env env "DB_PORT" (some (if resolved_is_pg env then "5432" else "3306"))).getD
    (if resolved_is_pg env then "5432" else "3306")

/-- Local `user`: `_get_env("DB_USER", None)`. -/
def resolved_user (env : Env) : Option String :=
  _get_env env "DB_USER" none

/-- Local `password`: `_get_env("DB_PASSWORD", None)`. -/
def resolved_password (env : Env) : Option String :=
  _get_env env "DB_PASSWORD" none

/-- Local `dbname`: `_get_env("DB_NAME", "postgres" if is_pg else "mysql")`. -/
def resolved_dbname (env : Env) : String :=
  (_get_env env "DB_NAME" (some (if resolved_is_pg env then "postgres" else "mysql"))).getD
    (if resolved_is_pg env then "postgres" else "mysql")

/-- Local `drivername`: `"postgresql+psycopg2" if is_pg else "mysql+pymysql"`. -/
def resolved_drivername (env : Env) : String :=
  if resolved_is_pg env then "postgresql+psycopg2" else "mysql+pymysql"

/-- `build_db_url_from_env()`: resolve `DB_TYPE`, `DB_HOST`, `DB_PORT`,
`DB_USER`, `DB_PASSWORD`, `DB_NAME` from the environment and build
`(safe_url, details)`.  `sqlalchemyAvailable` is whether the guarded
`sqlalchemy` import succeeded (the `URL is None` check); `int(port)` may
raise `ValueError`. -/
def build_db_url_from_env (sqlalchemyAvailable : Bool) (env : Env) :
    Except PyExc (String × Details) :=
  if sqlalchemyAvailable then
    match pyIntOfString (resolved_port_s env) with
    | none => .error (intValueError (resolved_port_s env))
    | some p =>
      let safe_url := render_as_string_hidden (resolved_drivername env) (resolved_user env)
        (resolved_password env) (resolved_host env) p (resolved_dbname env)
      .ok (safe_url,
        { db_type := resolved_db_type env, driver := resolved_drivername env,
          host := resolved_host env, port := p, database := resolved_dbname env,
          username := resolved_user env, url := safe_url })
  else
    .error { cls := .runtimeError, name := "RuntimeError",
             msg := "SQLAlchemy is not installed. Please install dependencies first." }

/-- The state the program runs against: the environment plus the oracle
behaviour of the external SQLAlchemy machinery. -/
structure World where
  env : Env
  /-- whether the guarded `from sqlalchemy import ...` succeeded
  (`_sqlalchemy_import_error is None`). -/
  sqlalchemyAvailable : Bool
  /-- what `create_engine(real_url, ...)` does after a successful URL build. -/
  engineResult : Except PyExc Unit
  /-- what `engine.connect()` + `conn.execute(text("SELECT 1"))` does. -/
  connectResult : Except PyExc Unit

/-- `create_engine_from_env()`: raise `RuntimeError` when the guarded
sqlalchemy load failed, else build the URL and create the engine. -/
def create_engine_from_env (w : World) : Except PyExc Details :=
  if w.sqlalchemyAvailable then
    match build_db_url_from_env w.sqlalchemyAvailable w.env with
    | .error e => .error e
    | .ok (_, details) =>
      match w.engineResult with
      | .error e => .error e
      | .ok _ => .ok details
  else
    .error { cls := .runtimeError, name := "RuntimeError",
             msg := "Failed to import SQLAlchemy. Install requirements and retry." }

/-- The `details` view used in probe payloads:
`{k: v for k, v in details.items() if k != "username" or v}` — the
`username` key is dropped when its value is falsy (`None` or `""`). -/
structure DetailsView where
  db_type : String
  driver : String
  host : String
  port : Int
  database : String
  /-- `none` means the `username` key is absent from the dict. -/
  username : Option String
  url : String
deriving DecidableEq, Repr

/-- Build the payload view of a `details` dict, dropping a falsy username. -/
def detailsView (d : Details) : DetailsView :=
  { db_type := d.db_type, driver := d.driver, host := d.host, port := d.port,
    database := d.database,
    username := match d.username with
                | some u => if u = "" then none else some u
                | none => none,
    url := d.url }

/-- A probe payload dict.  `none` in an `Option` field means the key is
absent; `code` is `Option (Option String)` because the `code` key, when
present, may hold `null`. -/
structure Payload where
  error : Option String := none
  status : Option String := none
  message : Option String := none
  code : Option (Option String) := none
  details : Option DetailsView := none
  hint : Option String := none
deriving DecidableEq, Repr

/-- `check_db_liveness()`: attempt a liveness query; classify failures.
Engine-construction failures are caught by the
`NoSuchModuleError` / `ArgumentError` / `Exception` chain; connect/query
failures only by the `OperationalError` / `ProgrammingError` /
`SQLAlchemyError` chain — an exception there that is not a
`SQLAlchemyError` propagates out (`Except.error`). -/
def check_db_liveness (w : World) : Except PyExc (Bool × Payload) :=
  match create_engine_from_env w with
  | .error e =>
    if e.cls = .noSuchModuleError then
      .ok (false,
        { error := some "NoSuchModuleError",
          message := some ("Database driver not found for URL \x27" ++ e.msg ++
            "\x27. Install the appropriate driver: psycopg2-binary for PostgreSQL, or PyMySQL for MySQL.") })
    else if e.cls = .argumentError then
      .ok (false,
        { error := some "ArgumentError", message := some e.msg,
          hint := some "Check DB_HOST/DB_PORT/DB_NAME/DB_USER formatting." })
    else
      -- except Exception: base dict, plus a hint when the sqlalchemy import failed
      .ok (false,
        { error := some e.name, message := some e.msg,
          hint := if w.sqlalchemyAvailable then none
                  else some "Install dependencies from requirements.txt" })
  | .ok details =>
    match w.connectResult with
    | .ok _ =>
      .ok (true, { status := some "ok", details := some (detailsView details) })
    | .error e =>
      if e.cls = .operationalError then
        .ok (false,
          { error := some "OperationalError",
            message := some (match e.orig with | some o => o.text | none => e.msg),
            code := some (match e.orig with | some o => o.pgcode | none => none),
            details := some (detailsView details),
            hint := some "Verify the database is running, network access, credentials, and that the driver is installed." })
      else if e.cls = .programmingError then
        .ok (false,
          { error := some "ProgrammingError",
            message := some (match e.orig with | some o => o.text | none => e.msg),
            details := some (detailsView details) })
      else if e.cls.isSQLAlchemyError then
        .ok (false,
          { error := some e.name, message := some e.msg,
            details := some (detailsView details) })
      else
        .error e

/-- The response of the `/db/health` Flask route: JSON body (the payload
itself, since `jsonify` is a faithful serialization) and HTTP status. -/
structure HttpResponse where
  body : Payload
  status : Nat
deriving DecidableEq, Repr

/-- `db_health()`: `ok, payload = check_db_liveness(); 200 if ok else 503`.
An exception escaping `check_db_liveness` also escapes the handler. -/
def db_health (w : World) : Except PyExc HttpResponse :=
  match check_db_liveness w with
  | .error e => .error e
  | .ok (ok, payload) => .ok { body := payload, status := if ok then 200 else 503 }

/-- Arguments of the `serve` subcommand as resolved by argparse. -/
structure ServeArgs where
  host : String
  port : Int
  debug : Bool
deriving DecidableEq, Repr

/-- argparse defaults of `serve`: `--host` default `"0.0.0.0"`, `--port`
default `5000`, `--debug` is `store_true` with `default=True`. -/
def serveDefaults : ServeArgs := { host := "0.0.0.0", port := 5000, debug := true }

/-- The argparse loop over the `serve` flags: `--host` and `--port` take a
value (`--port` converted by `int`), `--debug` is `store_true` (it can only
set the field to `True`); anything else is a parse error (`none`). -/
def parseServeArgs : List String → ServeArgs → Option ServeArgs
  | [], acc => some acc
  | "--debug" :: rest, acc => parseServeArgs rest { acc with debug := true }
  | "--host" :: v :: rest, acc => parseServeArgs rest { acc with host := v }
  | "--port" :: v :: rest, acc =>
    match pyIntOfString v with
    | some n => parseServeArgs rest { acc with port := n }
    | none => none
  | _, _ => none

/-- The externally visible action `_run_cli(argv)` takes. -/
inductive CliAction where
  | runServer (host : String) (port : Int) (debug : Bool)
  | runCheck
  | parseError
deriving DecidableEq, Repr

/-- `_run_cli(argv)` control flow: empty argv runs `app.run(debug=True)`
(Flask defaults `127.0.0.1:5000`); `check` runs the liveness check;
`serve` parses its flags and runs the server; anything else is an argparse
error. -/
def _run_cli (argv : List String) : CliAction :=
  match argv with
  | [] => .runServer "127.0.0.1" 5000 true
  | "check" :: rest => if rest = [] then .runCheck else .parseError
  | "serve" :: rest =>
    match parseServeArgs rest serveDefaults with
    | some a => .runServer a.host a.port a.debug
    | none => .parseError
  | _ => .parseError

/-! ## Helper environments, worlds and lemmas -/

/-- The environment with no configuration variables set. -/
def emptyEnv : Env := fun _ => none

/-- The environment with only the kind-selector set to `mysql`. -/
def mysqlOnlyEnv : Env := fun k => if k = "DB_TYPE" then some "mysql" else none

/-- Override one environment variable. -/
def setVar (env : Env) (key val : String) : Env :=
  fun k => if k = key then some val else env k

theorem getEnv_setVar_self (env : Env) (key val : String) (d : Option String) :
    _get_env (setVar env key val) key d = some (pyStrip val) := by
  simp [_get_env, setVar]

theorem getEnv_setVar_ne (env : Env) (key val k : String) (d : Option String)
    (h : k ≠ key) : _get_env (setVar env key val) k d = _get_env env k d := by
  simp [_get_env, setVar, h]

/-- The `details` dict produced from the empty environment. -/
def detailsDefault : Details :=
  { db_type := "postgresql", driver := "postgresql+psycopg2", host := "localhost",
    port := 5432, database := "postgres", username := none,
    url := "postgresql+psycopg2://localhost:5432/postgres" }

/-- A world where engine construction succeeds and the probe query runs fine. -/
def worldDefaultOk : World :=
  { env := emptyEnv, sqlalchemyAvailable := true,
    engineResult := .ok (), connectResult := .ok () }

/-- A world where the connection attempt fails with a driver-level
`OperationalError` wrapping a transport error. -/
def worldOpFail : World :=
  { env := emptyEnv, sqlalchemyAvailable := true, engineResult := .ok (),
    connectResult := .error
      { cls := .operationalError, name := "OperationalError",
        msg := "(psycopg2.OperationalError) connection refused",
        orig := some { text := "connection refused", pgcode := none } } }

/-! ## Claims -/

/-- C6: with no configuration environment variables set, the resolved
descriptor is the postgres kind (code-level name `"postgresql"`) with
host `localhost`, port `5432`, database `postgres` and no username. -/
theorem C6_default_descriptor :
    build_db_url_from_env true emptyEnv =
      .ok ("postgresql+psycopg2://localhost:5432/postgres", detailsDefault) := by
  rfl

/-- C7: with only the kind-selector set to `mysql`, the resolved descriptor
has port 3306, database `mysql`, and a driver identifier different from the
driver resolved for the default (postgres) environment. -/
theorem C7_mysql_descriptor :
    (∃ u, build_db_url_from_env true mysqlOnlyEnv = .ok (u,
      { db_type := "mysql", driver := "mysql+pymysql", host := "localhost",
        port := 3306, database := "mysql", username := none, url := u })) ∧
    (∃ u0 d0, build_db_url_from_env true emptyEnv = .ok (u0, d0) ∧
      d0.driver ≠ "mysql+pymysql") := by
  refine ⟨⟨"mysql+pymysql://localhost:3306/mysql", rfl⟩,
    "postgresql+psycopg2://localhost:5432/postgres", detailsDefault, rfl, by decide⟩

/-- C5: the claim asserts that normalization of the synonym `postgres`
yields a kind named `postgres`; the code yields the name `postgresql`. -/
theorem C5_counterexample :
    _normalize_db_type (some "postgres") = "postgresql" ∧
    _normalize_db_type (some "postgres") ≠ "postgres" := by
  exact ⟨rfl, by decide⟩

/-- C5 (amended): normalization is total onto `{postgresql, mysql}`; the
trimmed, lowercased value `mysql` yields `mysql`; every case-insensitive
postgres synonym yields `postgresql`; every other input, including `none`
and the empty string, yields `postgresql`. -/
theorem C5_amended_normalization (s : Option String) :
    (_normalize_db_type s = "postgresql" ∨ _normalize_db_type s = "mysql") ∧
    (_normalize_db_type s = "mysql" ↔
      ∃ v, s = some v ∧ v ≠ "" ∧ pyToLower (pyStrip v) = "mysql") := by
  cases s with
  | none =>
    refine ⟨Or.inl rfl, ?_⟩
    simp [_normalize_db_type]
  | some v =>
    by_cases h0 : v = ""
    · subst h0
      refine ⟨Or.inl rfl, ?_⟩
      simp [_normalize_db_type]
    · by_cases h1 : pyToLower (pyStrip v) = "postgres" ∨ pyToLower (pyStrip v) = "postgresql" ∨
        pyToLower (pyStrip v) = "pgsql" ∨ pyToLower (pyStrip v) = "psql"
      · have hne : pyToLower (pyStrip v) ≠ "mysql" := by
          rcases h1 with h | h | h | h <;> simp [h]
        refine ⟨Or.inl ?_, ?_⟩
        · simp [_normalize_db_type, h0, h1]
        · simp [_normalize_db_type, h0, h1, hne]
      · by_cases h2 : pyToLower (pyStrip v) = "mysql"
        · refine ⟨Or.inr ?_, ?_⟩
          · simp [_normalize_db_type, h0, h1, h2]
          · simp [_normalize_db_type, h0, h1, h2]
        · refine ⟨Or.inl ?_, ?_⟩
          · simp [_normalize_db_type, h0, h1, h2]
          · simp [_normalize_db_type, h0, h1, h2]

/-- C5 (amended) witness: the synonym `MySQL` (mixed case, surrounded by
whitespace) normalizes to `mysql`. -/
theorem C5_amended_witness :
    _normalize_db_type (some " MySQL ") = "mysql" :=
  (C5_amended_normalization (some " MySQL ")).2.mpr ⟨" MySQL ", rfl, by decide, by decide⟩

/-- C2: counterexample — the claim says an empty (after trimming) `DB_PORT`
is treated as if the variable were absent, resolving to the default 5432.
Instead, with `DB_PORT` set to a space, `int("")` raises `ValueError`
during URL building. -/
theorem C2_counterexample :
    build_db_url_from_env true (setVar emptyEnv "DB_PORT" " ")
      = .error (intValueError "") := by
  rfl

/-- C2 (amended): every set value is trimmed before use, but a value that
is empty after trimming is treated as absent only for the kind-selector
and the host: an empty `DB_TYPE` yields the default kind `postgresql` and
an empty `DB_HOST` yields `localhost`, while an empty `DB_PORT` makes URL
building raise `ValueError` (from `int("")`) and an empty `DB_NAME` is
used literally as the empty database name. -/
theorem C2_amended_empty_values (env : Env) :
    (∀ v, env "DB_TYPE" = some v → pyStrip v = "" →
      resolved_db_type env = "postgresql") ∧
    (∀ v, env "DB_HOST" = some v → pyStrip v = "" →
      resolved_host env = "localhost") ∧
    (∀ v, env "DB_PORT" = some v → pyStrip v = "" →
      build_db_url_from_env true env = .error (intValueError "")) ∧
    (∀ v, env "DB_NAME" = some v → pyStrip v = "" →
      ∀ u d, build_db_url_from_env true env = .ok (u, d) → d.database = "") := by
  refine ⟨?_, ?_, ?_, ?_⟩
  · intro v hv he
    simp [resolved_db_type, _get_env, hv, he, _normalize_db_type]
  · intro v hv he
    simp [resolved_host, _get_env, hv, he]
  · intro v hv he
    have hps : resolved_port_s env = "" := by
      simp [resolved_port_s, _get_env, hv, he]
    simp [build_db_url_from_env, hps]
    rfl
  · intro v hv he u d hok
    have hdb : resolved_dbname env = "" := by
      simp [resolved_dbname, _get_env, hv, he]
    simp only [build_db_url_from_env, if_true] at hok
    split at hok
    · exact Except.noConfusion hok
    · simp only [Except.ok.injEq, Prod.mk.injEq] at hok
      rw [← hok.2]
      exact hdb

/-- C2 (amended) witness: with `DB_TYPE`, `DB_HOST`, `DB_PORT`, `DB_NAME`
all set to a single space, the kind and host default while URL building
fails on the port. -/
theorem C2_amended_witness :
    resolved_db_type
        (setVar (setVar (setVar (setVar emptyEnv "DB_TYPE" " ") "DB_HOST" " ") "DB_PORT" " ")
          "DB_NAME" " ") = "postgresql" ∧
    resolved_host
        (setVar (setVar (setVar (setVar emptyEnv "DB_TYPE" " ") "DB_HOST" " ") "DB_PORT" " ")
          "DB_NAME" " ") = "localhost" ∧
    build_db_url_from_env true
        (setVar (setVar (setVar (setVar emptyEnv "DB_TYPE" " ") "DB_HOST" " ") "DB_PORT" " ")
          "DB_NAME" " ") = .error (intValueError "") :=
  ⟨(C2_amended_empty_values _).1 " " rfl rfl,
   (C2_amended_empty_values _).2.1 " " rfl rfl,
   (C2_amended_empty_values _).2.2.1 " " rfl rfl⟩

/-- All resolved configuration values other than the password are
unaffected by the value stored in `DB_PASSWORD`. -/
theorem resolvers_ignore_password (env : Env) (p : String) :
    resolved_db_type (setVar env "DB_PASSWORD" p) = resolved_db_type env ∧
    resolved_host (setVar env "DB_PASSWORD" p) = resolved_host env ∧
    resolved_port_s (setVar env "DB_PASSWORD" p) = resolved_port_s env ∧
    resolved_user (setVar env "DB_PASSWORD" p) = resolved_user env ∧
    resolved_dbname (setVar env "DB_PASSWORD" p) = resolved_dbname env ∧
    resolved_drivername (setVar env "DB_PASSWORD" p) = resolved_drivername env := by
  have ht : resolved_db_type (setVar env "DB_PASSWORD" p) = resolved_db_type env := by
    rw [resolved_db_type, resolved_db_type, getEnv_setVar_ne _ _ _ _ _ (by decide)]
  have hpg : resolved_is_pg (setVar env "DB_PASSWORD" p) = resolved_is_pg env := by
    rw [resolved_is_pg, resolved_is_pg, ht]
  refine ⟨ht, ?_, ?_, ?_, ?_, ?_⟩
  · rw [resolved_host, resolved_host, getEnv_setVar_ne _ _ _ _ _ (by decide)]
  · rw [resolved_port_s, resolved_port_s, hpg, getEnv_setVar_ne _ _ _ _ _ (by decide)]
  · rw [resolved_user, resolved_user, getEnv_setVar_ne _ _ _ _ _ (by decide)]
  · rw [resolved_dbname, resolved_dbname, hpg, getEnv_setVar_ne _ _ _ _ _ (by decide)]
  · rw [resolved_drivername, resolved_drivername, hpg]

/-- C4: the display form (safe URL and details dict) is independent of the
password value: two environments that differ only in the value stored in
`DB_PASSWORD` produce identical `build_db_url_from_env` results, so the
literal password value never reaches the display form. -/
theorem C4_password_noninterference (sa : Bool) (env : Env) (p1 p2 : String) :
    build_db_url_from_env sa (setVar env "DB_PASSWORD" p1)
      = build_db_url_from_env sa (setVar env "DB_PASSWORD" p2) := by
  obtain ⟨ht1, hh1, hp1, hu1, hd1, hr1⟩ := resolvers_ignore_password env p1
  obtain ⟨ht2, hh2, hp2, hu2, hd2, hr2⟩ := resolvers_ignore_password env p2
  have hpw : ∀ p : String,
      resolved_password (setVar env "DB_PASSWORD" p) = some (pyStrip p) := by
    intro p
    rw [resolved_password, getEnv_setVar_self]
  simp only [build_db_url_from_env, render_as_string_hidden,
    ht1, hh1, hp1, hu1, hd1, hr1, ht2, hh2, hp2, hu2, hd2, hr2, hpw]

/-- A world where the probe fails at connect/query time with an exception
that is not a `SQLAlchemyError` subclass (e.g. a `TypeError` raised inside
the driver). -/
def worldUncaught : World :=
  { env := emptyEnv, sqlalchemyAvailable := true, engineResult := .ok (),
    connectResult := .error { cls := .otherException, name := "TypeError", msg := "boom" } }

/-- C1: counterexample — the claim says no exception ever propagates out of
`check_db_liveness` for any exception raised by the underlying driver.  But
the connect/query phase catches only `SQLAlchemyError` subclasses: a
non-`SQLAlchemyError` exception raised there escapes uncaught. -/
theorem C1_counterexample :
    check_db_liveness worldUncaught =
      .error { cls := .otherException, name := "TypeError", msg := "boom" } := by
  rfl

/-- C1 (amended): every failure during engine construction (import, URL
building, engine creation) is recovered into `(False, payload)`; during the
connect/probe phase, every `SQLAlchemyError` (including operational and
programming errors) is recovered too — so whenever the connect phase can
only raise `SQLAlchemyError`s, no exception escapes `check_db_liveness`. -/
theorem C1_amended_no_escape (w : World)
    (h : ∀ e, w.connectResult = Except.error e → e.cls.isSQLAlchemyError = true) :
    (check_db_liveness w).isOk = true := by
  unfold check_db_liveness
  cases hc : create_engine_from_env w with
  | error e =>
    by_cases h1 : e.cls = ExcClass.noSuchModuleError
    · simp only [h1, if_true]
      rfl
    · by_cases h2 : e.cls = ExcClass.argumentError
      · simp only [h1, h2, if_false, if_true]
        rfl
      · simp only [h1, h2, if_false]
        rfl
  | ok details =>
    cases hcr : w.connectResult with
    | ok u => rfl
    | error e =>
      have hsa := h e hcr
      by_cases h1 : e.cls = ExcClass.operationalError
      · simp only [h1, if_true]
        rfl
      · by_cases h2 : e.cls = ExcClass.programmingError
        · simp only [h1, h2, if_false, if_true]
          rfl
        · simp only [h1, h2, if_false, hsa]
          rfl

/-- C1 (amended) witness: in a world whose connect phase raises an
`OperationalError` (a `SQLAlchemyError`), the probe returns normally. -/
theorem C1_amended_witness : (check_db_liveness worldOpFail).isOk = true :=
  C1_amended_no_escape worldOpFail (by
    intro e he
    injection he with h
    rw [← h]
    rfl)

/-- A world where engine construction fails with `NoSuchModuleError`
(the DriverMissing category). -/
def worldNoDriver : World :=
  { env := emptyEnv, sqlalchemyAvailable := true,
    engineResult := .error
      { cls := .noSuchModuleError, name := "NoSuchModuleError",
        msg := "sqlalchemy.dialects:postgresql.psycopg2" },
    connectResult := .ok () }

/-- C3: counterexample — the claim says every payload, including
DriverMissing failures raised while building the engine, carries the
descriptor summary.  But a `NoSuchModuleError` during engine construction
produces a payload with only `error` and `message`: no `details` key. -/
theorem C3_counterexample :
    check_db_liveness worldNoDriver = .ok (false,
      { error := some "NoSuchModuleError",
        message := some "Database driver not found for URL \x27sqlalchemy.dialects:postgresql.psycopg2\x27. Install the appropriate driver: psycopg2-binary for PostgreSQL, or PyMySQL for MySQL.",
        details := none }) := by
  rfl

/-- Injectivity helper: an `Except.ok` equality on `(Bool, Payload)` pairs
determines the payload. -/
theorem exceptOkPairEq {b0 b : Bool} {pl p : Payload}
    (h : (Except.ok (b0, pl) : Except PyExc (Bool × Payload)) = Except.ok (b, p)) :
    p = pl := by
  simp only [Except.ok.injEq, Prod.mk.injEq] at h
  exact h.2.symm

/-- C3 (amended): the payload carries the descriptor summary (`details`
dict with kind, driver, host, port, database, username-if-present) exactly
for probes where the engine was constructed — the success payload and every
connect/query-phase failure payload include it, while every
engine-construction failure payload (DriverMissing, InvalidDescriptor,
Unknown) omits it. -/
theorem C3_amended_details_presence (w : World) :
    (∀ d b p, create_engine_from_env w = Except.ok d →
      check_db_liveness w = Except.ok (b, p) → p.details = some (detailsView d)) ∧
    (∀ e b p, create_engine_from_env w = Except.error e →
      check_db_liveness w = Except.ok (b, p) → p.details = none) := by
  constructor
  · intro d b p hd hc
    cases hcr : w.connectResult with
    | ok u =>
      have key : check_db_liveness w =
          .ok (true, { status := some "ok", details := some (detailsView d) }) := by
        unfold check_db_liveness
        rw [hd, hcr]
      have hp := exceptOkPairEq (key.symm.trans hc)
      rw [hp]
    | error e =>
      by_cases h1 : e.cls = ExcClass.operationalError
      · have key : check_db_liveness w = .ok (false,
            { error := some "OperationalError",
              message := some (match e.orig with | some o => o.text | none => e.msg),
              code := some (match e.orig with | some o => o.pgcode | none => none),
              details := some (detailsView d),
              hint := some "Verify the database is running, network access, credentials, and that the driver is installed." }) := by
          unfold check_db_liveness
          rw [hd, hcr]
          simp only [h1, if_true]
        have hp := exceptOkPairEq (key.symm.trans hc)
        rw [hp]
      · by_cases h2 : e.cls = ExcClass.programmingError
        · have key : check_db_liveness w = .ok (false,
              { error := some "ProgrammingError",
                message := some (match e.orig with | some o => o.text | none => e.msg),
                details := some (detailsView d) }) := by
            unfold check_db_liveness
            rw [hd, hcr]
            simp only [h1, h2, if_false, if_true]
            rfl
          have hp := exceptOkPairEq (key.symm.trans hc)
          rw [hp]
        · by_cases h3 : e.cls.isSQLAlchemyError = true
          · have key : check_db_liveness w = .ok (false,
                { error := some e.name, message := some e.msg,
                  details := some (detailsView d) }) := by
              unfold check_db_liveness
              rw [hd, hcr]
              simp only [h1, h2, h3, if_false, if_true]
            have hp := exceptOkPairEq (key.symm.trans hc)
            rw [hp]
          · have key : check_db_liveness w = .error e := by
              unfold check_db_liveness
              rw [hd, hcr]
              simp only [h1, h2, h3, if_false]
              rfl
            exact Except.noConfusion (key.symm.trans hc)
  · intro e b p he hc
    by_cases h1 : e.cls = ExcClass.noSuchModuleError
    · have key : check_db_liveness w = .ok (false,
          { error := some "NoSuchModuleError",
            message := some ("Database driver not found for URL \x27" ++ e.msg ++ "\x27. Install the appropriate driver: psycopg2-binary for PostgreSQL, or PyMySQL for MySQL.") }) := by
        unfold check_db_liveness
        rw [he]
        simp only [h1, if_true]
      have hp := exceptOkPairEq (key.symm.trans hc)
      rw [hp]
    · by_cases h2 : e.cls = ExcClass.argumentError
      · have key : check_db_liveness w = .ok (false,
            { error := some "ArgumentError", message := some e.msg,
              hint := some "Check DB_HOST/DB_PORT/DB_NAME/DB_USER formatting." }) := by
          unfold check_db_liveness
          rw [he]
          simp only [h1, h2, if_false, if_true]
          rfl
        have hp := exceptOkPairEq (key.symm.trans hc)
        rw [hp]
      · have key : check_db_liveness w = .ok (false,
            { error := some e.name, message := some e.msg,
              hint := if w.sqlalchemyAvailable then none
                      else some "Install dependencies from requirements.txt" }) := by
          unfold check_db_liveness
          rw [he]
          simp only [h1, h2, if_false]
        have hp := exceptOkPairEq (key.symm.trans hc)
        rw [hp]

/-- C3 (amended) witness: in the default healthy world the success payload
carries the descriptor summary. -/
theorem C3_amended_witness :
    ({ status := some "ok", details := some (detailsView detailsDefault) } : Payload).details
      = some (detailsView detailsDefault) :=
  (C3_amended_details_presence worldDefaultOk).1 detailsDefault true
    { status := some "ok", details := some (detailsView detailsDefault) } rfl rfl

/-- C8: a probe whose connection attempt fails with a driver
`OperationalError` (the ConnectionFailed category) yields `ok=false`, the
error tag `OperationalError`, a message equal to the underlying transport
error text (`str(e.orig)` when present, else `str(e)`), the vendor code
when available, the descriptor summary, and the fixed non-empty hint about
server, network, credentials and driver installation. -/
theorem C8_connection_failed (w : World) (d : Details) (e : PyExc)
    (hd : create_engine_from_env w = Except.ok d)
    (he : w.connectResult = Except.error e)
    (hcls : e.cls = ExcClass.operationalError) :
    check_db_liveness w = Except.ok (false,
      { error := some "OperationalError",
        message := some (match e.orig with | some o => o.text | none => e.msg),
        code := some (match e.orig with | some o => o.pgcode | none => none),
        details := some (detailsView d),
        hint := some "Verify the database is running, network access, credentials, and that the driver is installed." }) := by
  unfold check_db_liveness
  rw [hd, he]
  simp only [hcls, if_true]

/-- C8 witness: a concrete refused connection produces the ConnectionFailed
payload with the transport error text and the hint. -/
theorem C8_witness :
    check_db_liveness worldOpFail = Except.ok (false,
      { error := some "OperationalError",
        message := some "connection refused",
        code := some none,
        details := some (detailsView detailsDefault),
        hint := some "Verify the database is running, network access, credentials, and that the driver is installed." }) :=
  C8_connection_failed worldOpFail detailsDefault _ rfl rfl rfl

/-- C9: for every probe outcome, the `/db/health` endpoint serves the
outcome payload as the JSON body with HTTP status 200 exactly when
`ok=true` and 503 otherwise. -/
theorem C9_http_status (w : World) (ok : Bool) (p : Payload)
    (h : check_db_liveness w = Except.ok (ok, p)) :
    db_health w = Except.ok { body := p, status := if ok then 200 else 503 } ∧
    ((if ok then 200 else 503 : Nat) = 200 ↔ ok = true) ∧
    ((if ok then 200 else 503 : Nat) = 503 ↔ ok = false) := by
  refine ⟨?_, ?_, ?_⟩
  · unfold db_health
    rw [h]
  · cases ok <;> simp
  · cases ok <;> simp

/-- C9 witness: the healthy world yields the success payload with HTTP
status 200. -/
theorem C9_witness :
    db_health worldDefaultOk = Except.ok
      { body := { status := some "ok", details := some (detailsView detailsDefault) },
        status := 200 } ∧
    ((200 : Nat) = 200 ↔ true = true) ∧ ((200 : Nat) = 503 ↔ true = false) :=
  C9_http_status worldDefaultOk true _ rfl

/-- The argparse loop can never turn the `debug` field off: `--debug` is
`store_true`, so from a `debug=true` accumulator every successful parse
ends with `debug=true`. -/
theorem parseServeArgs_debug_true (l : List String) (acc : ServeArgs) :
    acc.debug = true → ∀ a, parseServeArgs l acc = some a → a.debug = true := by
  induction l, acc using parseServeArgs.induct with
  | case1 acc =>
    intro hacc a h
    simp only [parseServeArgs, Option.some.injEq] at h
    rw [← h]
    exact hacc
  | case2 rest acc ih =>
    intro _ a h
    exact ih rfl a h
  | case3 v rest acc ih =>
    intro hacc a h
    exact ih hacc a h
  | case4 v rest acc n hv ih =>
    intro hacc a h
    have h' : (match pyIntOfString v with
        | some n => parseServeArgs rest { host := acc.host, port := n, debug := acc.debug }
        | none => none) = some a := h
    rw [hv] at h'
    exact ih hacc a h'
  | case5 v rest acc hv =>
    intro hacc a h
    have h' : (match pyIntOfString v with
        | some n => parseServeArgs rest { host := acc.host, port := n, debug := acc.debug }
        | none => none) = some a := h
    rw [hv] at h'
    exact Option.noConfusion h'
  | case6 t x h1 h2 h3 h4 =>
    intro hacc a h
    rw [parseServeArgs.eq_def] at h
    split at h
    · exact absurd rfl h1
    · exact absurd rfl (h2 _)
    · exact absurd rfl (h3 _ _)
    · exact absurd rfl (h4 _ _)
    · exact Option.noConfusion h

/-- C10: every command-line invocation that starts the HTTP surface — the
`serve` subcommand with any argument combination, or no subcommand at all —
runs the server with debug mode enabled: `--debug` is declared
`store_true` with `default=True`, so debug can never be `False`. -/
theorem C10_debug_always_on (argv : List String) (h : String) (p : Int) (d : Bool)
    (hrun : _run_cli argv = CliAction.runServer h p d) : d = true := by
  rw [_run_cli.eq_def] at hrun
  split at hrun
  · injection hrun with h1 h2 h3
    exact h3.symm
  · split at hrun
    · exact CliAction.noConfusion hrun
    · exact CliAction.noConfusion hrun
  · rename_i rest
    cases hp : parseServeArgs rest serveDefaults with
    | some a =>
      rw [hp] at hrun
      injection hrun with h1 h2 h3
      rw [← h3]
      exact parseServeArgs_debug_true rest serveDefaults rfl a hp
    | none =>
      rw [hp] at hrun
      exact CliAction.noConfusion hrun
  · exact CliAction.noConfusion hrun

/-- C10 witness: `serve --debug` starts the server and its debug flag is
true. -/
theorem C10_witness :
    _run_cli ["serve", "--debug"] = CliAction.runServer "0.0.0.0" 5000 true ∧ true = true :=
  ⟨rfl, C10_debug_always_on ["serve", "--debug"] "0.0.0.0" 5000 true rfl⟩
